import Mathlib

/-!
Verification development for the query/response data model of a
preference-based reward-learning library (the file `learning/data_types.py`).

The Python source is shallowly embedded: each class becomes a structure, each
constructor becomes a total Lean function returning `Except PyError _`
(Python `assert` failures and `TypeError` exceptions become explicit error
values), and the numpy operations that the source relies on
(`np.arange`, `np.array`, the `in` membership test on arrays, `np.isclose`,
`itertools.permutations`) are translated with their host semantics.
Floating-point state vectors are modelled over `ℚ` with the documented
`np.isclose` tolerance formula.
-/

deriving instance DecidableEq for Except

namespace APReL

/-- Errors raised by the embedded Python code. The specification groups the
constructor-time `assert` failures under the name ValidationError; Python
raises them as AssertionError, which `assertionError` models. `typeError`
models a genuine TypeError raised by the interpreter, e.g. for a call with
the wrong number of arguments, and `indexError` models an out-of-range
indexing operation. -/
inductive PyError where
  | assertionError (msg : String)
  | typeError (msg : String)
  | indexError (msg : String)
  deriving DecidableEq

/-- External collaborator Trajectory: indexable to obtain (state, action)
pairs (the action may be absent at the final step), with a precomputed
feature vector. States and features are numeric vectors, modelled over ℚ. -/
structure Trajectory where
  pairs : List (List ℚ × Option (List ℚ))
  features : List ℚ
  deriving DecidableEq

/-- External collaborator TrajectorySet: an ordered collection of
trajectories, constructible from a list. -/
structure TrajectorySet where
  trajectories : List Trajectory
  deriving DecidableEq

/-- The size attribute of a TrajectorySet: the number of trajectories. -/
def TrajectorySet.size (s : TrajectorySet) : Nat := s.trajectories.length

/-- The slate argument of a query constructor: Union[TrajectorySet,
List[Trajectory]]. The isinstance check in each constructor accepts exactly
these two shapes, which this sum type enumerates. -/
inductive SlateArg where
  | ofSet (s : TrajectorySet)
  | ofList (l : List Trajectory)
  deriving DecidableEq

/-- The normalization performed by every slate setter:
new_slate if isinstance(new_slate, TrajectorySet) else TrajectorySet(new_slate). -/
def SlateArg.normalize : SlateArg → TrajectorySet
  | .ofSet s => s
  | .ofList l => { trajectories := l }

/-- Embedding of np.arange(K): the integers 0, 1, ..., K-1. -/
def npArange (K : Nat) : List Int := (List.range K).map fun i => Int.ofNat i

/-- Embedding of the Python test x in arr for a one-dimensional integer
numpy array: ndarray membership evaluates (arr == x).any(), an elementwise
comparison followed by any. -/
def npContains1 (arr : List Int) (x : Int) : Bool := arr.any fun a => a == x

/-- Embedding of the Python test x in arr for a two-dimensional integer
numpy array and a sequence x whose length equals the row length: numpy
broadcasts x across the rows, so (arr == x).any() is true when some entry
of some row agrees with the entry of x in the same column. -/
def npContains2 (rows : List (List Int)) (x : List Int) : Bool :=
  rows.any fun row => (row.zip x).any fun p => p.1 == p.2

/-- QueryWithResponse.__init__(self, query) declares exactly one parameter
besides self. -/
def QueryWithResponse.initParamCount : Nat := 1

/-- Embedding of a call to QueryWithResponse.__init__ passing `passed`
positional arguments besides self: Python raises TypeError when the
argument count does not match the declared parameter count. -/
def checkCallArity (passed : Nat) : Except PyError Unit :=
  if passed = QueryWithResponse.initParamCount then .ok ()
  else .error (.typeError ("QueryWithResponse.__init__ takes 2 positional arguments but " ++
    toString (passed + 1) ++ " were given"))

/-- Fuel-indexed enumeration of itertools.permutations: with fuel n and a
list l of length n, the output lists every permutation of l, by choosing
each position i of l in order as the head and recursively permuting the
list with position i erased. This reproduces the enumeration order of
itertools.permutations on its input tuple. -/
def permsAux : Nat → List Int → List (List Int)
  | 0, _ => [[]]
  | n + 1, l => (List.range l.length).flatMap fun i =>
      (permsAux n (l.eraseIdx i)).map fun m => l.getD i 0 :: m

/-- Embedding of [list(tup) for tup in itertools.permutations(l)]. -/
def pyPermutations (l : List Int) : List (List Int) := permsAux l.length l

/-- DemonstrationQuery: holds only the given initial state. -/
structure DemonstrationQuery where
  initial_state : List ℚ
  deriving DecidableEq

/-- Embedding of the np.isclose default tolerance test on a pair of scalars:
absolute difference at most atol + rtol * |b| with atol = 1e-08 and
rtol = 1e-05, written over ℚ. -/
def npIsClose (a b : ℚ) : Bool :=
  decide (|a - b| ≤ 1 / 100000000 + (1 / 100000) * |b|)

/-- Embedding of np.all(np.isclose(a, b)) for two numeric vectors of the
same length: every componentwise pair is close. -/
def npAllClose (a b : List ℚ) : Bool := (a.zip b).all fun p => npIsClose p.1 p.2

/-- Demonstration: pairs a trajectory with a DemonstrationQuery and exposes
the trajectory and its feature vector. -/
structure Demonstration where
  query : DemonstrationQuery
  trajectory : Trajectory
  features : List ℚ
  deriving DecidableEq

/-- Embedding of Demonstration.__init__(trajectory, query=None):
reads initial_state from trajectory[0], synthesizes a DemonstrationQuery
when query is None, otherwise asserts np.all(np.isclose(query.initial_state,
initial_state)); then calls the parent constructor with one argument and
stores the trajectory and its features. -/
def Demonstration.init (trajectory : Trajectory) (query : Option DemonstrationQuery) :
    Except PyError Demonstration :=
  match trajectory.pairs.head? with
  | none => .error (.indexError "trajectory index out of range")
  | some (initial_state, _) => do
    let q ← match query with
      | none => .ok { initial_state := initial_state : DemonstrationQuery }
      | some q =>
        if npAllClose q.initial_state initial_state then .ok q
        else .error (.assertionError "Mismatch between the query and the response for the demonstration.")
    checkCallArity 1
    .ok { query := q, trajectory := trajectory, features := trajectory.features }

/-- PreferenceQuery state: the normalized slate together with the derived
attributes K and response_set written by the slate setter. -/
structure PreferenceQuery where
  slate : TrajectorySet
  K : Nat
  response_set : List Int
  deriving DecidableEq

/-- The state produced by the PreferenceQuery slate setter: normalize the
slate, set K to its size and response_set to np.arange(K). -/
def PreferenceQuery.fromSlate (s : SlateArg) : PreferenceQuery :=
  { slate := s.normalize, K := s.normalize.size, response_set := npArange s.normalize.size }

/-- Embedding of the PreferenceQuery slate setter applied to an existing
query: every derived attribute is recomputed from the new slate, so the
previous state is discarded entirely. -/
def PreferenceQuery.setSlate (_q : PreferenceQuery) (new_slate : SlateArg) : PreferenceQuery :=
  PreferenceQuery.fromSlate new_slate

/-- Embedding of PreferenceQuery.__init__(slate): assigns the slate through
the setter, then asserts K >= 2. -/
def PreferenceQuery.init (slate : SlateArg) : Except PyError PreferenceQuery :=
  let q := PreferenceQuery.fromSlate slate
  if 2 ≤ q.K then .ok q
  else .error (.assertionError "Preference queries have to include at least 2 trajectories.")

/-- Preference: a PreferenceQuery together with a validated response. -/
structure Preference where
  query : PreferenceQuery
  response : Int
  deriving DecidableEq

/-- Embedding of Preference.__init__(query, response): calls the parent
constructor with one argument, then asserts response in query.response_set
(numpy membership on np.arange(K)). -/
def Preference.init (query : PreferenceQuery) (response : Int) : Except PyError Preference := do
  checkCallArity 1
  if npContains1 query.response_set response then
    .ok { query := query, response := response }
  else
    .error (.assertionError ("Response " ++ toString response ++
      " is out of bounds for a slate size of " ++ toString query.K ++ "."))

/-- WeakComparisonQuery state: the normalized slate together with the
derived attributes K and response_set written by the slate setter. -/
structure WeakComparisonQuery where
  slate : TrajectorySet
  K : Nat
  response_set : List Int
  deriving DecidableEq

/-- The state produced by the WeakComparisonQuery slate setter: normalize
the slate, set K to its size and response_set to np.array([-1, 0, 1]). -/
def WeakComparisonQuery.fromSlate (s : SlateArg) : WeakComparisonQuery :=
  { slate := s.normalize, K := s.normalize.size, response_set := [-1, 0, 1] }

/-- Embedding of the WeakComparisonQuery slate setter applied to an existing
query: every derived attribute is recomputed from the new slate. -/
def WeakComparisonQuery.setSlate (_q : WeakComparisonQuery) (new_slate : SlateArg) :
    WeakComparisonQuery :=
  WeakComparisonQuery.fromSlate new_slate

/-- Embedding of WeakComparisonQuery.__init__(slate): assigns the slate
through the setter, then asserts K == 2. -/
def WeakComparisonQuery.init (slate : SlateArg) : Except PyError WeakComparisonQuery :=
  let q := WeakComparisonQuery.fromSlate slate
  if q.K = 2 then .ok q
  else .error (.assertionError ("Weak comparison queries can only be pairwise comparisons, but " ++
    toString q.K ++ " trajectories were given."))

/-- WeakComparison: a WeakComparisonQuery together with a response. -/
structure WeakComparison where
  query : WeakComparisonQuery
  response : Int
  deriving DecidableEq

/-- Embedding of WeakComparison.__init__(query, response): the source calls
super().__init__(query, response), passing two positional arguments besides
self to QueryWithResponse.__init__, which declares only one; the call
therefore raises TypeError before the response validation is reached. -/
def WeakComparison.init (query : WeakComparisonQuery) (response : Int) :
    Except PyError WeakComparison := do
  checkCallArity 2
  if npContains1 query.response_set response then
    .ok { query := query, response := response }
  else
    .error (.assertionError ("Invalid response " ++ toString response ++
      " for the weak comparison query."))

/-- FullRankingQuery state: the normalized slate together with the derived
attributes K and response_set written by the slate setter. -/
structure FullRankingQuery where
  slate : TrajectorySet
  K : Nat
  response_set : List (List Int)
  deriving DecidableEq

/-- The state produced by the FullRankingQuery slate setter: normalize the
slate, set K to its size and response_set to the list of all permutations
of np.arange(K), one row per permutation. -/
def FullRankingQuery.fromSlate (s : SlateArg) : FullRankingQuery :=
  { slate := s.normalize, K := s.normalize.size,
    response_set := pyPermutations (npArange s.normalize.size) }

/-- Embedding of the FullRankingQuery slate setter applied to an existing
query: every derived attribute is recomputed from the new slate. -/
def FullRankingQuery.setSlate (_q : FullRankingQuery) (new_slate : SlateArg) :
    FullRankingQuery :=
  FullRankingQuery.fromSlate new_slate

/-- Embedding of FullRankingQuery.__init__(slate): assigns the slate through
the setter, then asserts K >= 2. -/
def FullRankingQuery.init (slate : SlateArg) : Except PyError FullRankingQuery :=
  let q := FullRankingQuery.fromSlate slate
  if 2 ≤ q.K then .ok q
  else .error (.assertionError "Ranking queries have to include at least 2 trajectories.")

/-- FullRanking: a FullRankingQuery together with a response sequence. -/
structure FullRanking where
  query : FullRankingQuery
  response : List Int
  deriving DecidableEq

/-- Embedding of FullRanking.__init__(query, response): calls the parent
constructor with one argument, then asserts response in query.response_set,
the numpy membership test of a sequence against a two-dimensional array. -/
def FullRanking.init (query : FullRankingQuery) (response : List Int) :
    Except PyError FullRanking := do
  checkCallArity 1
  if npContains2 query.response_set response then
    .ok { query := query, response := response }
  else
    .error (.assertionError ("Invalid response " ++ toString response ++
      " for the ranking query of size " ++ toString query.K ++ "."))

/-- A Python value passed to isinteger: the function is reachable with a
string or with a non-string such as an int. -/
inductive PyVal where
  | ofStr (s : String)
  | ofInt (n : Int)
  deriving DecidableEq

/-- Whitespace stripped by the Python int constructor on strings, restricted
to the ASCII whitespace characters. -/
def isPyWhitespace (c : Char) : Bool :=
  c == ' ' || c == '\t' || c == '\n' || c == '\x0b' || c == '\x0c' || c == '\r'

/-- Strip leading and trailing whitespace from a character list. -/
def pyStrip (l : List Char) : List Char :=
  ((l.dropWhile isPyWhitespace).reverse.dropWhile isPyWhitespace).reverse

/-- Continuation of the base-10 digit grammar accepted by int(str) after at
least one digit has been read: further digits, with single underscores
allowed only between digits. -/
def pyDigitsRest : List Char → Bool
  | [] => true
  | '_' :: c :: rest => c.isDigit && pyDigitsRest rest
  | ['_'] => false
  | c :: rest => c.isDigit && pyDigitsRest rest

/-- The nonempty digit part of the grammar accepted by int(str). -/
def pyDigits : List Char → Bool
  | [] => false
  | c :: rest => c.isDigit && pyDigitsRest rest

/-- The optionally signed digit part of the grammar accepted by int(str). -/
def pySignedDigits : List Char → Bool
  | '+' :: rest => pyDigits rest
  | '-' :: rest => pyDigits rest
  | l => pyDigits l

/-- Embedding of whether the Python call int(s) succeeds on a string s
(restricted to ASCII input): optional surrounding whitespace, an optional
sign, and a nonempty run of base-10 digits with single underscores allowed
between digits. -/
def pyIntAccepts (s : String) : Bool := pySignedDigits (pyStrip s.toList)

/-- Embedding of isinteger(input): asserts that the input is a string, then
returns whether int(input) succeeds. -/
def isinteger : PyVal → Except PyError Bool
  | .ofInt _ => .error (.assertionError "Invalid input to the isinteger method. The input must be a string.")
  | .ofStr s => .ok (pyIntAccepts s)

/-- A first concrete trajectory used to build sample slates. -/
def trajA : Trajectory := { pairs := [([0], none)], features := [1, 0] }

/-- A second concrete trajectory used to build sample slates. -/
def trajB : Trajectory := { pairs := [([1], none)], features := [0, 1] }

/-- The PreferenceQuery over the two-trajectory sample slate. -/
def prefQ2 : PreferenceQuery := PreferenceQuery.fromSlate (.ofList [trajA, trajB])

/-- The WeakComparisonQuery over the two-trajectory sample slate. -/
def wcQ2 : WeakComparisonQuery := WeakComparisonQuery.fromSlate (.ofList [trajA, trajB])

/-- The FullRankingQuery over the two-trajectory sample slate. -/
def frQ2 : FullRankingQuery := FullRankingQuery.fromSlate (.ofList [trajA, trajB])

/-- State of the query object after a Preference construction attempt:
Python passes the query by reference, so an attribute assignment inside the
constructor would surface here; the body reads query.response_set and
query.K but assigns no attribute of the query, so the post-state is the
argument itself. -/
def Preference.queryAfterInit (query : PreferenceQuery) (_response : Int) : PreferenceQuery :=
  query

/-- State of the query object after a FullRanking construction attempt; the
constructor body assigns no attribute of the query. -/
def FullRanking.queryAfterInit (query : FullRankingQuery) (_response : List Int) :
    FullRankingQuery :=
  query

/-- State of the query object after a WeakComparison construction attempt;
the constructor raises before running any statement of its own body and
assigns no attribute of the query. -/
def WeakComparison.queryAfterInit (query : WeakComparisonQuery) (_response : Int) :
    WeakComparisonQuery :=
  query

/-- A DemonstrationQuery whose initial state matches the first state of
trajA exactly. -/
def demoQgood : DemonstrationQuery := { initial_state := [0] }

/-- A DemonstrationQuery whose initial state is far from the first state of
trajA. -/
def demoQbad : DemonstrationQuery := { initial_state := [2] }

/-- The length of np.arange(K) is K. -/
theorem npArange_length (K : Nat) : (npArange K).length = K := by
  rw [npArange, List.length_map, List.length_range]

/-- The entries of np.arange(K) are pairwise distinct. -/
theorem npArange_nodup (K : Nat) : (npArange K).Nodup := by
  rw [npArange]
  exact List.Nodup.map (fun a b hab => Int.ofNat.inj hab) (List.nodup_range K)

/-- Membership in np.arange(K) under the numpy elementwise test is exactly
membership in the integer interval from 0 inclusive to K exclusive. -/
theorem npContains1_npArange (K : Nat) (r : Int) :
    npContains1 (npArange K) r = true ↔ 0 ≤ r ∧ r < (K : Int) := by
  rw [npContains1, List.any_eq_true]
  constructor
  · rintro ⟨a, ha, hab⟩
    have har : a = r := by simpa using hab
    subst har
    rw [npArange, List.mem_map] at ha
    obtain ⟨i, hiK, rfl⟩ := ha
    rw [List.mem_range] at hiK
    simp only [Int.ofNat_eq_coe]
    omega
  · rintro ⟨h0, hK⟩
    refine ⟨r, ?_, by simp⟩
    rw [npArange, List.mem_map]
    exact ⟨r.toNat, by rw [List.mem_range]; omega, by simp only [Int.ofNat_eq_coe]; omega⟩

/-- A nonempty row of a two-dimensional array passes the numpy membership
test against that array, because it agrees with itself elementwise. -/
theorem npContains2_of_mem {rows : List (List Int)} {x : List Int}
    (hx : x ∈ rows) (hne : x ≠ []) : npContains2 rows x = true := by
  refine List.any_eq_true.mpr ⟨x, hx, ?_⟩
  cases x with
  | nil => exact absurd rfl hne
  | cons a t => simp

/-- Every list is a permutation of the list formed by its entry at a valid
position i followed by the list with position i erased. -/
theorem perm_getD_cons_eraseIdx (l : List Int) (i : Nat) (h : i < l.length) :
    List.Perm l (l.getD i 0 :: l.eraseIdx i) := by
  rw [List.getD_eq_getElem l 0 h, List.eraseIdx_eq_take_drop_succ]
  conv_lhs => rw [← List.take_append_drop i l, List.drop_eq_getElem_cons h]
  exact List.perm_middle

/-- The length of a flatMap is the sum of the lengths of the pieces. -/
theorem length_flatMap_sum {α β : Type} (l : List α) (f : α → List β) :
    (l.flatMap f).length = (l.map fun a => (f a).length).sum :=
  List.length_flatMap l f

/-- With fuel equal to the length of the input, permsAux enumerates
factorially many rows. -/
theorem permsAux_length : ∀ (n : Nat) (l : List Int), l.length = n →
    (permsAux n l).length = Nat.factorial n
  | 0, _, _ => rfl
  | n + 1, l, h => by
    have hmap : ∀ i ∈ List.range l.length,
        ((permsAux n (l.eraseIdx i)).map fun m => l.getD i 0 :: m).length = Nat.factorial n := by
      intro i hi
      rw [List.length_map]
      refine permsAux_length n _ ?_
      rw [List.length_eraseIdx_of_lt (List.mem_range.mp hi)]
      omega
    calc (permsAux (n + 1) l).length
        = ((List.range l.length).map fun i =>
            ((permsAux n (l.eraseIdx i)).map fun m => l.getD i 0 :: m).length).sum :=
          length_flatMap_sum _ _
      _ = ((List.range l.length).map fun _ => Nat.factorial n).sum := by
          rw [List.map_congr_left hmap]
      _ = l.length * Nat.factorial n := by
          rw [List.map_const', List.sum_replicate, smul_eq_mul, List.length_range]
      _ = Nat.factorial (n + 1) := by rw [h, Nat.factorial_succ]

/-- With fuel equal to the length of the input, the rows enumerated by
permsAux are exactly the permutations of the input. -/
theorem permsAux_mem : ∀ (n : Nat) (l : List Int), l.length = n →
    ∀ m : List Int, (m ∈ permsAux n l ↔ List.Perm m l)
  | 0, l, h => by
    intro m
    rw [List.length_eq_zero.mp h]
    simp [permsAux]
  | n + 1, l, h => by
    intro m
    constructor
    · intro hm
      simp only [permsAux, List.mem_flatMap, List.mem_range, List.mem_map] at hm
      obtain ⟨i, hi, m', hm', rfl⟩ := hm
      have h1 : (l.eraseIdx i).length = n := by
        rw [List.length_eraseIdx_of_lt hi]
        omega
      have h2 : List.Perm m' (l.eraseIdx i) := (permsAux_mem n _ h1 m').mp hm'
      exact (h2.cons _).trans (perm_getD_cons_eraseIdx l i hi).symm
    · intro hm
      cases m with
      | nil =>
        have hl : l = [] := List.perm_nil.mp hm.symm
        rw [hl] at h
        simp at h
      | cons a m' =>
        have ha : a ∈ l := hm.subset (List.mem_cons_self a m')
        have hi : List.indexOf a l < l.length := List.indexOf_lt_length.mpr ha
        have hgd : l.getD (List.indexOf a l) 0 = a := by
          rw [List.getD_eq_getElem l 0 hi, List.getElem_indexOf hi]
        have hm' : List.Perm m' (l.erase a) := (List.cons_perm_iff_perm_erase.mp hm).2
        have h1 : (l.eraseIdx (List.indexOf a l)).length = n := by
          rw [List.length_eraseIdx_of_lt hi]
          omega
        have hmem : m' ∈ permsAux n (l.eraseIdx (List.indexOf a l)) := by
          rw [List.eraseIdx_indexOf_eq_erase] at h1 ⊢
          exact (permsAux_mem n _ h1 m').mpr hm'
        simp only [permsAux, List.mem_flatMap, List.mem_range, List.mem_map]
        exact ⟨List.indexOf a l, hi, m', hmem, by rw [hgd]⟩

/-- With fuel equal to the length of a duplicate-free input, the rows
enumerated by permsAux are pairwise distinct. -/
theorem permsAux_nodup : ∀ (n : Nat) (l : List Int), l.length = n → l.Nodup →
    (permsAux n l).Nodup
  | 0, _, _, _ => by simp [permsAux]
  | n + 1, l, h, hnd => by
    simp only [permsAux]
    rw [List.nodup_flatMap]
    constructor
    · intro i hi
      refine List.Nodup.map ?_ ?_
      · intro m₁ m₂ hm
        injection hm
      · refine permsAux_nodup n _ ?_ (hnd.eraseIdx _)
        rw [List.length_eraseIdx_of_lt (List.mem_range.mp hi)]
        omega
    · rw [List.pairwise_iff_getElem]
      intro i j hi hj hij
      rw [List.length_range] at hi hj
      simp only [List.getElem_range, Function.onFun]
      intro x hxi hxj
      simp only [List.mem_map] at hxi hxj
      obtain ⟨m₁, _, rfl⟩ := hxi
      obtain ⟨m₂, _, heq⟩ := hxj
      have hhead : l.getD j 0 = l.getD i 0 := (List.cons.injEq _ _ _ _).mp heq |>.1
      rw [List.getD_eq_getElem l 0 hi, List.getD_eq_getElem l 0 hj] at hhead
      exact absurd (hnd.getElem_inj_iff.mp hhead.symm) (by omega)

/-- The permutation enumeration has factorially many rows. -/
theorem pyPermutations_length (l : List Int) :
    (pyPermutations l).length = Nat.factorial l.length :=
  permsAux_length l.length l rfl

/-- The rows of the permutation enumeration are exactly the permutations of
the input. -/
theorem pyPermutations_mem (l : List Int) (m : List Int) :
    m ∈ pyPermutations l ↔ List.Perm m l :=
  permsAux_mem l.length l rfl m

/-- On a duplicate-free input the permutation enumeration has no repeated
rows. -/
theorem pyPermutations_nodup (l : List Int) (h : l.Nodup) :
    (pyPermutations l).Nodup :=
  permsAux_nodup l.length l rfl h

/-- Unfolding lemma: the Preference constructor reduces to its response
membership test, since the parent call passes the declared arity. -/
theorem Preference.initUnfold (q : PreferenceQuery) (r : Int) :
    Preference.init q r =
      if npContains1 q.response_set r then .ok { query := q, response := r }
      else .error (.assertionError ("Response " ++ toString r ++
        " is out of bounds for a slate size of " ++ toString q.K ++ ".")) := rfl

/-- Unfolding lemma: the FullRanking constructor reduces to its response
membership test, since the parent call passes the declared arity. -/
theorem FullRanking.initUnfoldRanking (q : FullRankingQuery) (r : List Int) :
    FullRanking.init q r =
      if npContains2 q.response_set r then .ok { query := q, response := r }
      else .error (.assertionError ("Invalid response " ++ toString r ++
        " for the ranking query of size " ++ toString q.K ++ ".")) := rfl

/-- Unfolding lemma: the WeakComparison constructor always raises the
arity TypeError of its parent call. -/
theorem WeakComparison.initUnfoldWeak (q : WeakComparisonQuery) (r : Int) :
    WeakComparison.init q r = .error (.typeError
      "QueryWithResponse.__init__ takes 2 positional arguments but 3 were given") := rfl

/-- C4: for every slate whose normalized size K is at least 2, constructing
a PreferenceQuery succeeds and its response_set is exactly the contiguous
integers 0..K-1, recomputed on every slate assignment; with K under 2 the
construction fails with the ValidationError of the specification. -/
theorem C4_preferenceQuery_response_set (s : SlateArg) :
    (2 ≤ (SlateArg.normalize s).size →
      PreferenceQuery.init s = .ok (PreferenceQuery.fromSlate s)) ∧
    ((PreferenceQuery.fromSlate s).K = (SlateArg.normalize s).size ∧
      (PreferenceQuery.fromSlate s).response_set =
        (List.range (PreferenceQuery.fromSlate s).K).map fun i => Int.ofNat i) ∧
    (∀ q : PreferenceQuery, (q.setSlate s).response_set =
      (List.range (SlateArg.normalize s).size).map fun i => Int.ofNat i) ∧
    ((SlateArg.normalize s).size < 2 →
      PreferenceQuery.init s =
        .error (.assertionError "Preference queries have to include at least 2 trajectories.")) := by
  refine ⟨?_, ⟨rfl, rfl⟩, fun q => rfl, ?_⟩
  · intro h
    have hc : 2 ≤ (PreferenceQuery.fromSlate s).K := h
    simp [PreferenceQuery.init, hc]
  · intro h
    have hc : ¬ 2 ≤ (PreferenceQuery.fromSlate s).K := by
      simp only [PreferenceQuery.fromSlate]
      omega
    simp [PreferenceQuery.init, hc]

/-- Witness for C4 on concrete slates of sizes 2 and 1. -/
theorem C4_witness :
    PreferenceQuery.init (.ofList [trajA, trajB]) = .ok prefQ2 ∧
    PreferenceQuery.init (.ofList [trajA]) =
      .error (.assertionError "Preference queries have to include at least 2 trajectories.") :=
  ⟨(C4_preferenceQuery_response_set (.ofList [trajA, trajB])).1 (by decide),
   (C4_preferenceQuery_response_set (.ofList [trajA])).2.2.2 (by decide)⟩

/-- C5: for every PreferenceQuery whose response_set is the one computed by
its slate setter, building a Preference with an integer response succeeds
exactly when the response lies in the interval from 0 inclusive to K
exclusive, storing the response unchanged; outside the interval it fails
with the ValidationError of the specification. -/
theorem C5_preference_round_trip (q : PreferenceQuery) (r : Int)
    (hq : q.response_set = npArange q.K) :
    (0 ≤ r ∧ r < (q.K : Int) →
      Preference.init q r = .ok { query := q, response := r }) ∧
    (¬(0 ≤ r ∧ r < (q.K : Int)) →
      Preference.init q r = .error (.assertionError ("Response " ++ toString r ++
        " is out of bounds for a slate size of " ++ toString q.K ++ "."))) := by
  constructor
  · intro h
    have hc : npContains1 q.response_set r = true := by
      rw [hq]
      exact (npContains1_npArange q.K r).mpr h
    rw [Preference.initUnfold]
    simp [hc]
  · intro h
    have hc : npContains1 q.response_set r = false := by
      rw [hq]
      cases hcb : npContains1 (npArange q.K) r
      · rfl
      · exact absurd ((npContains1_npArange q.K r).mp hcb) h
    rw [Preference.initUnfold]
    simp [hc]

/-- Witness for C5 on the concrete two-trajectory query with the responses
1 (inside the interval) and 5 (outside it). -/
theorem C5_witness :
    Preference.init prefQ2 1 = .ok { query := prefQ2, response := 1 } ∧
    Preference.init prefQ2 5 = .error (.assertionError ("Response " ++ toString (5 : Int) ++
      " is out of bounds for a slate size of " ++ toString prefQ2.K ++ ".")) :=
  ⟨(C5_preference_round_trip prefQ2 1 rfl).1 (by decide),
   (C5_preference_round_trip prefQ2 5 rfl).2 (by decide)⟩

/-- C6: the response_set of a WeakComparisonQuery produced by any slate
assignment is always the fixed set containing -1, 0 and 1, independent of
the slate contents; construction succeeds exactly on slates of size 2 and
otherwise fails with the ValidationError of the specification. -/
theorem C6_weakComparisonQuery (s : SlateArg) :
    ((WeakComparisonQuery.fromSlate s).response_set = [-1, 0, 1]) ∧
    (∀ q : WeakComparisonQuery, (q.setSlate s).response_set = [-1, 0, 1]) ∧
    ((SlateArg.normalize s).size = 2 →
      WeakComparisonQuery.init s = .ok (WeakComparisonQuery.fromSlate s)) ∧
    ((SlateArg.normalize s).size ≠ 2 →
      WeakComparisonQuery.init s = .error (.assertionError
        ("Weak comparison queries can only be pairwise comparisons, but " ++
          toString (SlateArg.normalize s).size ++ " trajectories were given."))) := by
  refine ⟨rfl, fun q => rfl, ?_, ?_⟩
  · intro h
    have hc : (WeakComparisonQuery.fromSlate s).K = 2 := h
    simp [WeakComparisonQuery.init, hc]
  · intro h
    have hc : ¬ (WeakComparisonQuery.fromSlate s).K = 2 := h
    simp only [WeakComparisonQuery.init, WeakComparisonQuery.fromSlate, hc]
    simp only [TrajectorySet.size] at h ⊢
    simp [h]

/-- Witness for C6 on concrete slates of sizes 2 and 3. -/
theorem C6_witness :
    WeakComparisonQuery.init (.ofList [trajA, trajB]) = .ok wcQ2 ∧
    WeakComparisonQuery.init (.ofList [trajA, trajB, trajA]) = .error (.assertionError
      ("Weak comparison queries can only be pairwise comparisons, but " ++
        toString (SlateArg.normalize (.ofList [trajA, trajB, trajA])).size ++
        " trajectories were given.")) :=
  ⟨(C6_weakComparisonQuery (.ofList [trajA, trajB])).2.2.1 (by decide),
   (C6_weakComparisonQuery (.ofList [trajA, trajB, trajA])).2.2.2 (by decide)⟩

/-- C1: over the two-trajectory slate the enumerated response_set is
exactly the two permutations, and the valid response [0, 1] is accepted,
but the invalid response [1, 1] is ALSO accepted: the validation applies
the numpy membership test of a sequence against a two-dimensional array,
which broadcasts the sequence and succeeds whenever any entry matches any
row in the same column, so the construction does not fail on [1, 1] as the
claim and the intent of the assert message require. -/
theorem C1_fullRanking_broadcast_accepts_nonpermutation :
    frQ2.response_set = [[0, 1], [1, 0]] ∧
    FullRanking.init frQ2 [0, 1] = .ok { query := frQ2, response := [0, 1] } ∧
    FullRanking.init frQ2 [1, 1] = .ok { query := frQ2, response := [1, 1] } := by
  refine ⟨by decide, by decide, by decide⟩

/-- C2: every WeakComparison construction attempt fails with a TypeError,
including the valid responses -1, 0 and 1: the constructor forwards two
positional arguments besides self to QueryWithResponse.__init__, which
declares only one, so the interpreter raises before the response
validation and the response assignment are reached. -/
theorem C2_weakComparison_always_typeError (q : WeakComparisonQuery) (r : Int) :
    WeakComparison.init q r = .error (.typeError
      "QueryWithResponse.__init__ takes 2 positional arguments but 3 were given") := rfl

/-- C3 counterexample: reassigning the slate of an already constructed
query does not re-validate the cardinality constraints: a PreferenceQuery
built from two trajectories accepts a one-trajectory slate reassignment and
reaches a state with K equal to 1, and a WeakComparisonQuery accepts a
three-trajectory slate reassignment and reaches a state with K equal to 3,
refuting the claim that K at least 2 (respectively K equal to 2) holds
after any slate assignment. -/
theorem C3_counterexample :
    PreferenceQuery.init (.ofList [trajA, trajB]) = .ok prefQ2 ∧
    (prefQ2.setSlate (.ofList [trajA])).K = 1 ∧
    WeakComparisonQuery.init (.ofList [trajA, trajB]) = .ok wcQ2 ∧
    (wcQ2.setSlate (.ofList [trajA, trajB, trajA])).K = 3 := by
  refine ⟨by decide, by decide, by decide, by decide⟩

/-- C3 amended: the slate-cardinality invariants are established at
construction time: every successfully constructed PreferenceQuery or
FullRankingQuery has K at least 2 and every successfully constructed
WeakComparisonQuery has K exactly 2; slate reassignment is a full reset
that recomputes K, slate and response_set from the new slate alone, but it
performs no cardinality re-validation, so the invariants need not survive
a later reassignment. -/
theorem C3_amended_invariants_at_construction (s t : SlateArg) :
    (∀ q, PreferenceQuery.init s = .ok q → 2 ≤ q.K) ∧
    (∀ q, FullRankingQuery.init s = .ok q → 2 ≤ q.K) ∧
    (∀ q, WeakComparisonQuery.init s = .ok q → q.K = 2) ∧
    (∀ q : PreferenceQuery, (q.setSlate t).K = (SlateArg.normalize t).size ∧
      (q.setSlate t).slate = SlateArg.normalize t ∧
      (q.setSlate t).response_set = npArange (SlateArg.normalize t).size) ∧
    (∀ q : FullRankingQuery, (q.setSlate t).K = (SlateArg.normalize t).size ∧
      (q.setSlate t).response_set = pyPermutations (npArange (SlateArg.normalize t).size)) ∧
    (∀ q : WeakComparisonQuery, (q.setSlate t).K = (SlateArg.normalize t).size ∧
      (q.setSlate t).response_set = [-1, 0, 1]) := by
  refine ⟨?_, ?_, ?_, fun q => ⟨rfl, rfl, rfl⟩, fun q => ⟨rfl, rfl⟩, fun q => ⟨rfl, rfl⟩⟩
  · intro q hq
    simp only [PreferenceQuery.init] at hq
    split at hq
    · cases hq
      assumption
    · cases hq
  · intro q hq
    simp only [FullRankingQuery.init] at hq
    split at hq
    · cases hq
      assumption
    · cases hq
  · intro q hq
    simp only [WeakComparisonQuery.init] at hq
    split at hq
    · cases hq
      assumption
    · cases hq

/-- Witness for the amended C3 on concrete two-trajectory slates. -/
theorem C3_amended_witness :
    2 ≤ prefQ2.K ∧ 2 ≤ frQ2.K ∧ wcQ2.K = 2 :=
  ⟨(C3_amended_invariants_at_construction (.ofList [trajA, trajB]) (.ofList [trajA])).1
      prefQ2 (by decide),
   (C3_amended_invariants_at_construction (.ofList [trajA, trajB]) (.ofList [trajA])).2.1
      frQ2 (by decide),
   (C3_amended_invariants_at_construction (.ofList [trajA, trajB]) (.ofList [trajA])).2.2.1
      wcQ2 (by decide)⟩

/-- C7: for every slate whose normalized size K is at least 2 the
FullRankingQuery constructor succeeds; its response_set has exactly
factorial K rows, the rows are pairwise distinct and are exactly the
permutations of 0..K-1, and every enumerated row passes FullRanking
construction against the query; with K under 2 the constructor fails with
the ValidationError of the specification. -/
theorem C7_fullRankingQuery_permutations (s : SlateArg) :
    (2 ≤ (SlateArg.normalize s).size →
      FullRankingQuery.init s = .ok (FullRankingQuery.fromSlate s) ∧
      (FullRankingQuery.fromSlate s).response_set.length =
        Nat.factorial (SlateArg.normalize s).size ∧
      (FullRankingQuery.fromSlate s).response_set.Nodup ∧
      (∀ row, row ∈ (FullRankingQuery.fromSlate s).response_set ↔
        List.Perm row (npArange (SlateArg.normalize s).size)) ∧
      (∀ row ∈ (FullRankingQuery.fromSlate s).response_set,
        FullRanking.init (FullRankingQuery.fromSlate s) row =
          .ok { query := FullRankingQuery.fromSlate s, response := row })) ∧
    ((SlateArg.normalize s).size < 2 →
      FullRankingQuery.init s =
        .error (.assertionError "Ranking queries have to include at least 2 trajectories.")) := by
  constructor
  · intro h
    refine ⟨?_, ?_, ?_, fun row => pyPermutations_mem _ row, ?_⟩
    · have hc : 2 ≤ (FullRankingQuery.fromSlate s).K := h
      simp [FullRankingQuery.init, hc]
    · show (pyPermutations (npArange (SlateArg.normalize s).size)).length = _
      rw [pyPermutations_length, npArange_length]
    · exact pyPermutations_nodup _ (npArange_nodup _)
    · intro row hrow
      have hlen : row.length = (SlateArg.normalize s).size := by
        have hp := (pyPermutations_mem _ row).mp hrow
        rw [hp.length_eq, npArange_length]
      have hne : row ≠ [] := by
        intro hnil
        rw [hnil] at hlen
        simp at hlen
        omega
      have hc : npContains2 (FullRankingQuery.fromSlate s).response_set row = true :=
        npContains2_of_mem hrow hne
      rw [FullRanking.initUnfoldRanking]
      simp [hc]
  · intro h
    have hc : ¬ 2 ≤ (FullRankingQuery.fromSlate s).K := by
      simp only [FullRankingQuery.fromSlate]
      omega
    simp [FullRankingQuery.init, hc]

/-- Witness for C7 on concrete slates of sizes 2 and 1. -/
theorem C7_witness :
    FullRankingQuery.init (.ofList [trajA, trajB]) = .ok frQ2 ∧
    frQ2.response_set.length = Nat.factorial 2 ∧
    frQ2.response_set.Nodup ∧
    FullRanking.init frQ2 [1, 0] = .ok { query := frQ2, response := [1, 0] } ∧
    FullRankingQuery.init (.ofList [trajA]) =
      .error (.assertionError "Ranking queries have to include at least 2 trajectories.") :=
  have h := (C7_fullRankingQuery_permutations (.ofList [trajA, trajB])).1 (by decide)
  ⟨h.1, h.2.1, h.2.2.1, h.2.2.2.2 [1, 0] (by decide),
   (C7_fullRankingQuery_permutations (.ofList [trajA])).2 (by decide)⟩

/-- C8: isinteger evaluates as the specification claims on its examples,
returns on every string input exactly the verdict of the host base-10
integer parser, and fails on a non-string input with the assertion that the
specification calls the TypeError-equivalent. -/
theorem C8_isinteger_base10 :
    isinteger (.ofStr "3") = .ok true ∧
    isinteger (.ofStr "3.0") = .ok false ∧
    isinteger (.ofStr "abc") = .ok false ∧
    (∀ s : String, isinteger (.ofStr s) = .ok (pyIntAccepts s)) ∧
    (∀ n : Int, isinteger (.ofInt n) = .error (.assertionError
      "Invalid input to the isinteger method. The input must be a string.")) :=
  ⟨by decide, by decide, by decide, fun s => rfl, fun n => rfl⟩

/-- C9: with the query omitted, Demonstration construction succeeds and
synthesizes a DemonstrationQuery holding the first state of the trajectory;
with an explicit query of matching dimension it succeeds exactly when the
query initial state is elementwise close, in the np.isclose tolerance, to
the first state of the trajectory, exposing the trajectory and its feature
vector, and otherwise fails with the ValidationError of the
specification. -/
theorem C9_demonstration (t : Trajectory) (st : List ℚ) (act : Option (List ℚ))
    (rest : List (List ℚ × Option (List ℚ))) (q : DemonstrationQuery)
    (ht : t.pairs = (st, act) :: rest)
    (_hdim : q.initial_state.length = st.length) :
    Demonstration.init t none =
      .ok { query := { initial_state := st }, trajectory := t, features := t.features } ∧
    (npAllClose q.initial_state st = true →
      Demonstration.init t (some q) =
        .ok { query := q, trajectory := t, features := t.features }) ∧
    (npAllClose q.initial_state st = false →
      Demonstration.init t (some q) =
        .error (.assertionError "Mismatch between the query and the response for the demonstration.")) := by
  refine ⟨?_, ?_, ?_⟩
  · simp only [Demonstration.init, ht, List.head?_cons]
    rfl
  · intro h
    simp only [Demonstration.init, ht, List.head?_cons, h, if_true]
    rfl
  · intro h
    simp only [Demonstration.init, ht, List.head?_cons, h, Bool.false_eq_true, if_false]
    rfl

/-- Witness for C9 on the concrete trajectory trajA with the synthesized
query, a matching explicit query and a mismatching explicit query. -/
theorem C9_witness :
    Demonstration.init trajA none =
      .ok { query := { initial_state := [0] }, trajectory := trajA, features := trajA.features } ∧
    Demonstration.init trajA (some demoQgood) =
      .ok { query := demoQgood, trajectory := trajA, features := trajA.features } ∧
    Demonstration.init trajA (some demoQbad) =
      .error (.assertionError "Mismatch between the query and the response for the demonstration.") :=
  have h1 := C9_demonstration trajA [0] none [] demoQgood rfl rfl
  have h2 := C9_demonstration trajA [0] none [] demoQbad rfl rfl
  ⟨h1.1,
   h1.2.1 (by simp [demoQgood, npAllClose, npIsClose]),
   h2.2.2 (by simp [demoQbad, npAllClose, npIsClose]; norm_num)⟩

/-- C10: constructing a response object never modifies the query it wraps:
the embedded post-state of the query equals its pre-state for every
response value, valid or invalid, and on success the stored query is the
given one, so its K, slate and response_set are identical before and after
the construction attempt. -/
theorem C10_response_construction_preserves_query (q1 : PreferenceQuery) (r1 : Int)
    (q2 : FullRankingQuery) (r2 : List Int) (q3 : WeakComparisonQuery) (r3 : Int) :
    Preference.queryAfterInit q1 r1 = q1 ∧
    FullRanking.queryAfterInit q2 r2 = q2 ∧
    WeakComparison.queryAfterInit q3 r3 = q3 ∧
    (∀ p, Preference.init q1 r1 = .ok p →
      p.query.K = q1.K ∧ p.query.slate = q1.slate ∧ p.query.response_set = q1.response_set) ∧
    (∀ p, FullRanking.init q2 r2 = .ok p →
      p.query.K = q2.K ∧ p.query.slate = q2.slate ∧ p.query.response_set = q2.response_set) ∧
    (∀ p, WeakComparison.init q3 r3 = .ok p →
      p.query.K = q3.K ∧ p.query.slate = q3.slate ∧ p.query.response_set = q3.response_set) := by
  refine ⟨rfl, rfl, rfl, ?_, ?_, ?_⟩
  · intro p hp
    rw [Preference.initUnfold] at hp
    split at hp
    · cases hp
      exact ⟨rfl, rfl, rfl⟩
    · cases hp
  · intro p hp
    rw [FullRanking.initUnfoldRanking] at hp
    split at hp
    · cases hp
      exact ⟨rfl, rfl, rfl⟩
    · cases hp
  · intro p hp
    rw [WeakComparison.initUnfoldWeak] at hp
    cases hp

/-- Witness for C10 on concrete queries and responses. -/
theorem C10_witness :
    ({ query := prefQ2, response := 0 } : Preference).query.K = prefQ2.K ∧
    ({ query := frQ2, response := [0, 1] } : FullRanking).query.K = frQ2.K :=
  ⟨((C10_response_construction_preserves_query prefQ2 0 frQ2 [0, 1] wcQ2 0).2.2.2.1
      { query := prefQ2, response := 0 } (by decide)).1,
   ((C10_response_construction_preserves_query prefQ2 0 frQ2 [0, 1] wcQ2 0).2.2.2.2.1
      { query := frQ2, response := [0, 1] } (by decide)).1⟩

end APReL
